import Mathlib

/-!
Shallow embedding of the signal generation and lifecycle engine of the
FO-AI-Trader repository, together with its market-aware scheduling helpers.

The embedded source units are:
  * `src/strategy/signal_config.py` (`SignalConfig` thresholds and
    `is_market_hours`),
  * `src/data_ingestion/automated_scheduler.py` (`is_market_open`,
    `fetch_nifty_data_with_retry`),
  * `src/feature_engineering/oi_signals.py` (`get_atm_strike`,
    `compute_window_pcr`),
  * `src/strategy/advanced_signal_engine.py` (the `AdvancedSignalEngine`
    class: signal evaluation, active-signal lifecycle, rate limiting and
    `generate_signals`).

Python `datetime` values are modelled as integer epoch seconds together
with (for market gating) a weekday index and a time-of-day value; all
numeric market quantities are modelled as rationals.
-/

namespace FOAITrader

/-- The closed set of signal kinds the engine tracks
(`'BUY_CE'` / `'BUY_PE'` dictionary keys in the Python code). -/
inductive SignalType where
  | BUY_CE : SignalType
  | BUY_PE : SignalType
deriving DecidableEq

/-- Signal strength tiers assigned from the confidence score. -/
inductive SignalStrength where
  | HIGH : SignalStrength
  | MEDIUM : SignalStrength
  | LOW : SignalStrength
deriving DecidableEq

/-- Configuration fields of `SignalConfig` (src/strategy/signal_config.py)
that the embedded engine reads.  Market start/end times are stored as
seconds of day (the Python code parses `'09:15'`-style strings into
`time` objects; only their ordering is ever used). -/
structure SignalConfig where
  enabled : Bool
  marketHoursOnly : Bool
  pcrBuyCeMax : ℚ
  pcrBuyPeMin : ℚ
  rsiOversoldMax : ℚ
  rsiOversoldRecovery : ℚ
  rsiOverboughtMin : ℚ
  rsiOverboughtDecline : ℚ
  oiSignificantChangePct : ℚ
  oiMinLevel : ℚ
  signalCooldownMinutes : Int
  confidenceThreshold : ℚ
  maxSignalsPerHour : Nat
  enableSignalRenewal : Bool
  signalExpiryBufferSeconds : Int
  marketStartTime : Int
  marketEndTime : Int
deriving DecidableEq

/-- The default configuration from `SignalConfig._set_defaults`
(also the `.get(...)` defaults in `_load_signal_config`); market hours
09:15-15:30 expressed as seconds of day. -/
def defaultSignalConfig : SignalConfig where
  enabled := true
  marketHoursOnly := true
  pcrBuyCeMax := 0.7
  pcrBuyPeMin := 1.3
  rsiOversoldMax := 30
  rsiOversoldRecovery := 50
  rsiOverboughtMin := 70
  rsiOverboughtDecline := 50
  oiSignificantChangePct := 15
  oiMinLevel := 10000
  signalCooldownMinutes := 15
  confidenceThreshold := 0.7
  maxSignalsPerHour := 6
  enableSignalRenewal := true
  signalExpiryBufferSeconds := 30
  marketStartTime := 9 * 3600 + 15 * 60
  marketEndTime := 15 * 3600 + 30 * 60

/-- A wall-clock instant as consumed by the market gates: weekday
(`Monday = 0, ..., Sunday = 6` as in Python's `datetime.weekday()`),
time of day in seconds, and absolute epoch seconds. -/
structure Datetime where
  weekday : Nat
  tod : Int
  epoch : Int
deriving DecidableEq

/-- `SignalConfig.is_market_hours` (src/strategy/signal_config.py:135-154):
if `market_hours_only` is off, always `True`; otherwise compare only the
time-of-day component of the instant with the configured window
(`start_time <= current_time_only <= end_time`).  The weekday is never
inspected. -/
def is_market_hours (cfg : SignalConfig) (t : Datetime) : Bool :=
  if !cfg.marketHoursOnly then true
  else decide (cfg.marketStartTime ≤ t.tod ∧ t.tod ≤ cfg.marketEndTime)

/-- `AutomatedScheduler.is_market_open`
(src/data_ingestion/automated_scheduler.py:47-68): weekend days
(`weekday > 4`) are rejected unconditionally; on weekdays the instant is
inside the window iff `market_start <= now <= market_end`, which for a
same-day window reduces to the time-of-day comparison. -/
def is_market_open (cfg : SignalConfig) (t : Datetime) : Bool :=
  if t.weekday > 4 then false
  else decide (cfg.marketStartTime ≤ t.tod ∧ t.tod ≤ cfg.marketEndTime)

/-- `SignalConfig.is_pcr_bullish`. -/
def is_pcr_bullish (cfg : SignalConfig) (pcr : ℚ) : Bool :=
  decide (pcr ≤ cfg.pcrBuyCeMax)

/-- `SignalConfig.is_pcr_bearish`. -/
def is_pcr_bearish (cfg : SignalConfig) (pcr : ℚ) : Bool :=
  decide (pcr ≥ cfg.pcrBuyPeMin)

/-- `SignalConfig.is_rsi_oversold_recovery`. -/
def is_rsi_oversold_recovery (cfg : SignalConfig) (currentRsi previousRsi : ℚ) : Bool :=
  decide (previousRsi ≤ cfg.rsiOversoldMax ∧
    currentRsi > cfg.rsiOversoldMax ∧ currentRsi ≤ cfg.rsiOversoldRecovery)

/-- `SignalConfig.is_rsi_overbought_decline`. -/
def is_rsi_overbought_decline (cfg : SignalConfig) (currentRsi previousRsi : ℚ) : Bool :=
  decide (previousRsi ≥ cfg.rsiOverboughtMin ∧
    currentRsi < cfg.rsiOverboughtMin ∧ currentRsi ≥ cfg.rsiOverboughtDecline)

/-- `SignalConfig.is_oi_change_significant`. -/
def is_oi_change_significant (cfg : SignalConfig) (oiChangePct : ℚ) : Bool :=
  decide (|oiChangePct| ≥ cfg.oiSignificantChangePct)

/-- `SignalConfig.is_oi_level_sufficient`. -/
def is_oi_level_sufficient (cfg : SignalConfig) (oiLevel : ℚ) : Bool :=
  decide (oiLevel ≥ cfg.oiMinLevel)

/-- Python 3 `round`: round to the nearest integer, ties to even
(used by `get_atm_strike` on the quotient `spot_price / step`). -/
def pyRound (q : ℚ) : Int :=
  let f : Int := ⌊q⌋
  if q - f < 1/2 then f
  else if q - f > 1/2 then f + 1
  else if f % 2 = 0 then f else f + 1

/-- One row of the option chain table, with the columns read by the
embedded code (`strike_price`, `option_type`, `open_interest`,
`change_in_oi`; `compute_window_pcr` sees them under their renamed
`'Strike Price'` etc. headers, with identical values). -/
structure OptionRow where
  strikePrice : ℚ
  optionType : String
  openInterest : ℚ
  changeInOI : ℚ
deriving DecidableEq

/-- `get_atm_strike` (src/feature_engineering/oi_signals.py:4-8):
`int(round(spot_price / step) * step)`. -/
def get_atm_strike (spotPrice : ℚ) (step : Int) : Int :=
  pyRound (spotPrice / step) * step

/-- The rows of `df_option` whose strike lies in `[atm - window*step,
atm + window*step]` (the filter inside `compute_window_pcr`). -/
def pcrWindowRows (chain : List OptionRow) (spotPrice : ℚ) (step window : Int) :
    List OptionRow :=
  let atm := get_atm_strike spotPrice step
  let lower := atm - window * step
  let upper := atm + window * step
  chain.filter (fun r => decide ((lower : ℚ) ≤ r.strikePrice ∧ r.strikePrice ≤ (upper : ℚ)))

/-- Call-side open-interest sum inside the PCR window (`ce_oi` in
`compute_window_pcr`). -/
def pcrWindowCeOi (chain : List OptionRow) (spotPrice : ℚ) (step window : Int) : ℚ :=
  ((pcrWindowRows chain spotPrice step window).filter
    (fun r => r.optionType == "CE")).foldr (fun r acc => r.openInterest + acc) 0

/-- Put-side open-interest sum inside the PCR window (`pe_oi` in
`compute_window_pcr`). -/
def pcrWindowPeOi (chain : List OptionRow) (spotPrice : ℚ) (step window : Int) : ℚ :=
  ((pcrWindowRows chain spotPrice step window).filter
    (fun r => r.optionType == "PE")).foldr (fun r acc => r.openInterest + acc) 0

/-- `compute_window_pcr` (src/feature_engineering/oi_signals.py:11-36):
returns `(pcr, atm, (lower, upper))`; division by a zero call-side OI is
guarded to a PCR of `0`. -/
def compute_window_pcr (chain : List OptionRow) (spotPrice : ℚ) (step window : Int) :
    ℚ × Int × (Int × Int) :=
  let atm := get_atm_strike spotPrice step
  let lower := atm - window * step
  let upper := atm + window * step
  let ceOi := pcrWindowCeOi chain spotPrice step window
  let peOi := pcrWindowPeOi chain spotPrice step window
  if ceOi = 0 then (0, atm, (lower, upper))
  else (peOi / ceOi, atm, (lower, upper))

/-- A generated signal dictionary (the record built by
`_evaluate_ce_conditions` / `_evaluate_pe_conditions`). -/
structure Signal where
  signalType : SignalType
  strikePrice : ℚ
  signalStrength : SignalStrength
  confidenceScore : ℚ
  pcrValue : ℚ
  rsiValue : ℚ
  oiChangePct : ℚ
  spotPrice : ℚ
  premiumPrice : ℚ
  targetPrice : ℚ
  stopLoss : ℚ
  generatedAt : Int
  symbol : String
  validityMinutes : Int
  marketContext : String
deriving DecidableEq

/-- An entry of `self.active_signals` as stored by `track_active_signal`:
the signal dictionary plus its generation and expiry instants. -/
structure ActiveEntry where
  signalData : Signal
  generatedAt : Int
  expiryTime : Int
  validityMinutes : Int
deriving DecidableEq

/-- A dictionary keyed by the two signal kinds (models the Python dicts
`self.active_signals` and `self.last_signals`, which only ever hold the
keys `'BUY_CE'` and `'BUY_PE'`). -/
structure KindMap (α : Type) where
  buyCE : Option α
  buyPE : Option α
deriving DecidableEq

/-- Dictionary lookup. -/
def KindMap.lookup {α : Type} (m : KindMap α) : SignalType → Option α
  | SignalType.BUY_CE => m.buyCE
  | SignalType.BUY_PE => m.buyPE

/-- Dictionary insertion/overwrite (`m[k] = v`). -/
def KindMap.insert {α : Type} (m : KindMap α) (k : SignalType) (v : α) : KindMap α :=
  match k with
  | SignalType.BUY_CE => { m with buyCE := some v }
  | SignalType.BUY_PE => { m with buyPE := some v }

/-- Dictionary deletion (`del m[k]`, no-op when absent). -/
def KindMap.erase {α : Type} (m : KindMap α) (k : SignalType) : KindMap α :=
  match k with
  | SignalType.BUY_CE => { m with buyCE := none }
  | SignalType.BUY_PE => { m with buyPE := none }

/-- The empty dictionary. -/
def KindMap.empty {α : Type} : KindMap α := ⟨none, none⟩

/-- The mutable state of `AdvancedSignalEngine`: `self.last_signals`
(kind to last emission instant), `self.signal_history` (emission
instants for rate limiting) and `self.active_signals`. -/
structure EngineState where
  lastSignals : KindMap Int
  signalHistory : List Int
  activeSignals : KindMap ActiveEntry
deriving DecidableEq

/-- The engine state right after `__init__`. -/
def initialEngineState : EngineState :=
  ⟨KindMap.empty, [], KindMap.empty⟩

/-- `AdvancedSignalEngine.clear_expired_signals`
(src/strategy/advanced_signal_engine.py:538-564): delete every active
entry with `now >= expiry_time + buffer_seconds`; nothing else is
touched. -/
def clear_expired_signals (cfg : SignalConfig) (s : EngineState) (now : Int) :
    EngineState :=
  let keep : Option ActiveEntry → Option ActiveEntry := fun entry =>
    match entry with
    | none => none
    | some e =>
        if now ≥ e.expiryTime + cfg.signalExpiryBufferSeconds then none else some e
  { s with activeSignals := ⟨keep s.activeSignals.buyCE, keep s.activeSignals.buyPE⟩ }

/-- `AdvancedSignalEngine.is_signal_active`
(src/strategy/advanced_signal_engine.py:566-580): `False` immediately if
the kind is untracked (no cleanup in that case); otherwise run
`clear_expired_signals` and report whether the kind survived.  The
returned state carries the cleanup's mutation. -/
def is_signal_active (cfg : SignalConfig) (s : EngineState) (now : Int)
    (signalType : SignalType) : Bool × EngineState :=
  match s.activeSignals.lookup signalType with
  | none => (false, s)
  | some _ =>
      let s1 := clear_expired_signals cfg s now
      ((s1.activeSignals.lookup signalType).isSome, s1)

/-- `AdvancedSignalEngine.is_signal_expired`
(src/strategy/advanced_signal_engine.py:582-596): `True` for an
untracked kind; for a tracked kind, `now >= expiry_time` with no buffer. -/
def is_signal_expired (cfg : SignalConfig) (s : EngineState) (now : Int)
    (signalType : SignalType) : Bool :=
  match s.activeSignals.lookup signalType with
  | none => true
  | some e => decide (now ≥ e.expiryTime)

/-- `AdvancedSignalEngine._check_signal_cooldown`
(src/strategy/advanced_signal_engine.py:466-474). -/
def check_signal_cooldown (cfg : SignalConfig) (s : EngineState) (now : Int)
    (signalType : SignalType) : Bool :=
  match s.lastSignals.lookup signalType with
  | none => true
  | some lastTime => decide (now - lastTime ≥ cfg.signalCooldownMinutes * 60)

/-- Emission instants inside the trailing 60-minute window ending at
`now` (the pruning predicate `signal_time > one_hour_ago` of
`_check_rate_limits`). -/
def windowCount (history : List Int) (now : Int) : Nat :=
  (history.filter (fun t => decide (t > now - 3600))).length

/-- `AdvancedSignalEngine._check_rate_limits`
(src/strategy/advanced_signal_engine.py:476-487): prune
`self.signal_history` to the trailing hour, then compare its length with
`max_signals_per_hour`. -/
def check_rate_limits (cfg : SignalConfig) (s : EngineState) (now : Int) :
    Bool × EngineState :=
  let pruned := s.signalHistory.filter (fun t => decide (t > now - 3600))
  (decide (pruned.length < cfg.maxSignalsPerHour),
    { s with signalHistory := pruned })

/-- `AdvancedSignalEngine._track_signal_for_rate_limiting`
(src/strategy/advanced_signal_engine.py:500-509). -/
def track_signal_for_rate_limiting (s : EngineState) (sig : Signal) : EngineState :=
  { s with
    lastSignals := s.lastSignals.insert sig.signalType sig.generatedAt,
    signalHistory := s.signalHistory ++ [sig.generatedAt] }

/-- `AdvancedSignalEngine.track_active_signal`
(src/strategy/advanced_signal_engine.py:511-532): store the signal under
its kind with `expiry_time = generated_at + timedelta(minutes =
validity_minutes)`. -/
def track_active_signal (cfg : SignalConfig) (s : EngineState) (sig : Signal) :
    EngineState :=
  let validityMinutes := sig.validityMinutes
  let expiryTime := sig.generatedAt + validityMinutes * 60
  { s with
    activeSignals := s.activeSignals.insert sig.signalType
      ⟨sig, sig.generatedAt, expiryTime, validityMinutes⟩ }

/-- The suppression check at the top of `_evaluate_ce_conditions` /
`_evaluate_pe_conditions` (src/strategy/advanced_signal_engine.py:
252-264, 348-360): when `enable_signal_renewal` is set, skip generation
while `is_signal_active(kind)` holds (this mutates the state through
the cleanup inside `is_signal_active`); otherwise fall back to the
cooldown check.  Returns whether generation is suppressed plus the
resulting state. -/
def renewal_gate (cfg : SignalConfig) (s : EngineState) (now : Int)
    (k : SignalType) : Bool × EngineState :=
  if cfg.enableSignalRenewal then is_signal_active cfg s now k
  else (!check_signal_cooldown cfg s now k, s)

/-- The spec's `track(candidate)` operation as realized by the code:
the renewal-mode suppression check at the top of
`_evaluate_ce_conditions` / `_evaluate_pe_conditions`
(src/strategy/advanced_signal_engine.py:252-264, 348-360) followed, for
an accepted candidate, by `track_active_signal` in the
`generate_signals` loop.  Returns whether the candidate was accepted,
plus the resulting state. -/
def track_candidate (cfg : SignalConfig) (s : EngineState) (now : Int)
    (sig : Signal) : Bool × EngineState :=
  if (renewal_gate cfg s now sig.signalType).1 then
    (false, (renewal_gate cfg s now sig.signalType).2)
  else (true, track_active_signal cfg (renewal_gate cfg s now sig.signalType).2 sig)

/-- The OI analysis dictionary built by
`AdvancedSignalEngine._analyze_oi_patterns`
(src/strategy/advanced_signal_engine.py:199-250) on a non-empty
analysis window. -/
structure OiAnalysis where
  ceOiTotal : ℚ
  peOiTotal : ℚ
  ceOiChange : ℚ
  peOiChange : ℚ
  ceOiChangePct : ℚ
  peOiChangePct : ℚ
  totalOi : ℚ
deriving DecidableEq

/-- Sum of a projected column over rows (pandas `Series.sum`). -/
def colSum (rows : List OptionRow) (col : OptionRow → ℚ) : ℚ :=
  rows.foldr (fun r acc => col r + acc) 0

/-- Mean of a projected column over rows (pandas `Series.mean`);
only evaluated on non-empty row sets in the embedded code. -/
def colMean (rows : List OptionRow) (col : OptionRow → ℚ) : ℚ :=
  colSum rows col / (rows.length : ℚ)

/-- `AdvancedSignalEngine._analyze_oi_patterns`: restrict the chain to
strikes within `atm_strike ± 3*50`, split by option type, and compute
totals, mean OI changes and change percentages (guarding division by a
non-positive total to `0`).  When the window is empty the Python code
returns a dictionary without the `..._change_pct` keys, so every later
component access raises `KeyError` and the evaluation functions return
`None` through their exception handlers; that partial dictionary is
modelled as `none`. -/
def analyze_oi_patterns (chain : List OptionRow) (atmStrike : Int) :
    Option OiAnalysis :=
  let strikeRange : Int := 3 * 50
  let lowerBound := atmStrike - strikeRange
  let upperBound := atmStrike + strikeRange
  let windowData := chain.filter (fun r =>
    decide ((lowerBound : ℚ) ≤ r.strikePrice ∧ r.strikePrice ≤ (upperBound : ℚ)))
  if windowData.isEmpty then none
  else
    let ceData := windowData.filter (fun r => r.optionType == "CE")
    let peData := windowData.filter (fun r => r.optionType == "PE")
    let ceOiTotal := if ceData.isEmpty then 0 else colSum ceData (·.openInterest)
    let peOiTotal := if peData.isEmpty then 0 else colSum peData (·.openInterest)
    let ceOiChange := if ceData.isEmpty then 0 else colMean ceData (·.changeInOI)
    let peOiChange := if peData.isEmpty then 0 else colMean peData (·.changeInOI)
    let ceOiChangePct := if ceOiTotal > 0 then ceOiChange / ceOiTotal * 100 else 0
    let peOiChangePct := if peOiTotal > 0 then peOiChange / peOiTotal * 100 else 0
    some ⟨ceOiTotal, peOiTotal, ceOiChange, peOiChange,
      ceOiChangePct, peOiChangePct, ceOiTotal + peOiTotal⟩

/-- The three `signal_components` of `_evaluate_ce_conditions`
(src/strategy/advanced_signal_engine.py:266-293), in dictionary order
`(pcr_bullish, rsi_recovery, oi_supportive)`. -/
def ce_components (cfg : SignalConfig) (pcrValue currentRsi previousRsi : ℚ)
    (oi : OiAnalysis) : ℚ × ℚ × ℚ :=
  let pcrBullish : ℚ :=
    if is_pcr_bullish cfg pcrValue then
      min 1 (0.5 + max 0 ((cfg.pcrBuyCeMax - pcrValue) / cfg.pcrBuyCeMax))
    else 0
  let rsiRecovery : ℚ :=
    if is_rsi_oversold_recovery cfg currentRsi previousRsi then 1
    else if currentRsi ≤ cfg.rsiOversoldRecovery ∧ currentRsi > previousRsi then 0.6
    else 0
  let oiSupportive : ℚ :=
    if oi.ceOiChangePct > 0 ∧ is_oi_change_significant cfg oi.ceOiChangePct ∧
        is_oi_level_sufficient cfg oi.ceOiTotal then 1
    else if oi.ceOiChangePct > 0 then 0.5
    else 0
  (pcrBullish, rsiRecovery, oiSupportive)

/-- The three `signal_components` of `_evaluate_pe_conditions`
(src/strategy/advanced_signal_engine.py:362-389), in dictionary order
`(pcr_bearish, rsi_decline, oi_supportive)`.  Unlike the CE side, the
PCR strength term carries no `max(0, ...)` clamp. -/
def pe_components (cfg : SignalConfig) (pcrValue currentRsi previousRsi : ℚ)
    (oi : OiAnalysis) : ℚ × ℚ × ℚ :=
  let pcrBearish : ℚ :=
    if is_pcr_bearish cfg pcrValue then
      min 1 (0.5 + (pcrValue - cfg.pcrBuyPeMin) / cfg.pcrBuyPeMin)
    else 0
  let rsiDecline : ℚ :=
    if is_rsi_overbought_decline cfg currentRsi previousRsi then 1
    else if currentRsi ≥ cfg.rsiOverboughtDecline ∧ currentRsi < previousRsi then 0.6
    else 0
  let oiSupportive : ℚ :=
    if oi.peOiChangePct > 0 ∧ is_oi_change_significant cfg oi.peOiChangePct ∧
        is_oi_level_sufficient cfg oi.peOiTotal then 1
    else if oi.peOiChangePct > 0 then 0.5
    else 0
  (pcrBearish, rsiDecline, oiSupportive)

/-- `np.mean` over the three component scores. -/
def componentMean (c : ℚ × ℚ × ℚ) : ℚ :=
  (c.1 + c.2.1 + c.2.2) / 3

/-- Number of components that are strictly positive
(`conditions_met` in the evaluation functions). -/
def conditionsMet (c : ℚ × ℚ × ℚ) : Nat :=
  (if c.1 > 0 then 1 else 0) + (if c.2.1 > 0 then 1 else 0) +
    (if c.2.2 > 0 then 1 else 0)

/-- The strength tier assigned from the confidence score
(thresholds 0.8 / 0.6). -/
def strengthOfConfidence (confidenceScore : ℚ) : SignalStrength :=
  if confidenceScore ≥ 0.8 then SignalStrength.HIGH
  else if confidenceScore ≥ 0.6 then SignalStrength.MEDIUM
  else SignalStrength.LOW

/-- `AdvancedSignalEngine._generate_market_context`
(src/strategy/advanced_signal_engine.py:444-464); reading a missing
dictionary key through `.get(..., 0)` yields `0`, so on the CE side only
`pcr_bullish` / `rsi_recovery` fire and on the PE side only
`pcr_bearish` / `rsi_decline`. -/
def generate_market_context (isBullish : Bool) (c : ℚ × ℚ × ℚ)
    (direction : String) : String :=
  let pcrPart : List String :=
    if isBullish ∧ c.1 > 0.7 then ["Strong PCR bullish"]
    else if !isBullish ∧ c.1 > 0.7 then ["Strong PCR bearish"]
    else []
  let rsiPart : List String :=
    if isBullish ∧ c.2.1 > 0.7 then ["RSI recovery"]
    else if !isBullish ∧ c.2.1 > 0.7 then ["RSI decline"]
    else []
  let oiPart : List String := if c.2.2 > 0.7 then ["OI buildup"] else []
  let parts := pcrPart ++ rsiPart ++ oiPart
  if parts.isEmpty then direction ++ " momentum"
  else String.intercalate " + " parts

/-- The candidate-construction body of `_evaluate_ce_conditions`
(src/strategy/advanced_signal_engine.py:266-342): components,
confidence, two-of-three gate, strength tier and the signal record.
A `none` OI analysis models the `KeyError` raised on the partial
dictionary of an empty analysis window (caught to a `None` result). -/
def ce_signal_core (cfg : SignalConfig) (now : Int)
    (pcrValue currentRsi previousRsi : ℚ) (oi : Option OiAnalysis)
    (spotPrice : ℚ) (atmStrike : Int) (symbol : String) : Option Signal :=
  match oi with
  | none => none
  | some oiAnalysis =>
      let c := ce_components cfg pcrValue currentRsi previousRsi oiAnalysis
      let confidenceScore := componentMean c
      if conditionsMet c < 2 then none
      else
        let signalStrength := strengthOfConfidence confidenceScore
        let ceStrike := atmStrike
        let premiumEstimate := max 50 ((spotPrice - (ceStrike : ℚ)) + 30)
        let targetPrice := premiumEstimate * 1.33
        let stopLoss := premiumEstimate * 0.8
        some
          { signalType := SignalType.BUY_CE
            strikePrice := (ceStrike : ℚ)
            signalStrength := signalStrength
            confidenceScore := confidenceScore
            pcrValue := pcrValue
            rsiValue := currentRsi
            oiChangePct := oiAnalysis.ceOiChangePct
            spotPrice := spotPrice
            premiumPrice := premiumEstimate
            targetPrice := targetPrice
            stopLoss := stopLoss
            generatedAt := now
            symbol := symbol
            validityMinutes := cfg.signalCooldownMinutes
            marketContext := generate_market_context true c "Bullish" }

/-- The candidate-construction body of `_evaluate_pe_conditions`
(src/strategy/advanced_signal_engine.py:362-438). -/
def pe_signal_core (cfg : SignalConfig) (now : Int)
    (pcrValue currentRsi previousRsi : ℚ) (oi : Option OiAnalysis)
    (spotPrice : ℚ) (atmStrike : Int) (symbol : String) : Option Signal :=
  match oi with
  | none => none
  | some oiAnalysis =>
      let c := pe_components cfg pcrValue currentRsi previousRsi oiAnalysis
      let confidenceScore := componentMean c
      if conditionsMet c < 2 then none
      else
        let signalStrength := strengthOfConfidence confidenceScore
        let peStrike := atmStrike
        let premiumEstimate := max 50 (((peStrike : ℚ) - spotPrice) + 30)
        let targetPrice := premiumEstimate * 1.33
        let stopLoss := premiumEstimate * 0.8
        some
          { signalType := SignalType.BUY_PE
            strikePrice := (peStrike : ℚ)
            signalStrength := signalStrength
            confidenceScore := confidenceScore
            pcrValue := pcrValue
            rsiValue := currentRsi
            oiChangePct := oiAnalysis.peOiChangePct
            spotPrice := spotPrice
            premiumPrice := premiumEstimate
            targetPrice := targetPrice
            stopLoss := stopLoss
            generatedAt := now
            symbol := symbol
            validityMinutes := cfg.signalCooldownMinutes
            marketContext := generate_market_context false c "Bearish" }

/-- `AdvancedSignalEngine._evaluate_ce_conditions`
(src/strategy/advanced_signal_engine.py:252-346): the suppression gate
followed by the candidate-construction body. -/
def evaluate_ce_conditions (cfg : SignalConfig) (s : EngineState) (now : Int)
    (pcrValue currentRsi previousRsi : ℚ) (oi : Option OiAnalysis)
    (spotPrice : ℚ) (atmStrike : Int) (symbol : String) :
    Option Signal × EngineState :=
  if (renewal_gate cfg s now SignalType.BUY_CE).1 then
    (none, (renewal_gate cfg s now SignalType.BUY_CE).2)
  else
    (ce_signal_core cfg now pcrValue currentRsi previousRsi oi spotPrice
       atmStrike symbol,
     (renewal_gate cfg s now SignalType.BUY_CE).2)

/-- `AdvancedSignalEngine._evaluate_pe_conditions`
(src/strategy/advanced_signal_engine.py:348-442). -/
def evaluate_pe_conditions (cfg : SignalConfig) (s : EngineState) (now : Int)
    (pcrValue currentRsi previousRsi : ℚ) (oi : Option OiAnalysis)
    (spotPrice : ℚ) (atmStrike : Int) (symbol : String) :
    Option Signal × EngineState :=
  if (renewal_gate cfg s now SignalType.BUY_PE).1 then
    (none, (renewal_gate cfg s now SignalType.BUY_PE).2)
  else
    (pe_signal_core cfg now pcrValue currentRsi previousRsi oi spotPrice
       atmStrike symbol,
     (renewal_gate cfg s now SignalType.BUY_PE).2)

/-- The market-data snapshot assembled by
`AdvancedSignalEngine._get_market_data` (external database reads):
the last RSI samples of the underlying-features table (oldest first),
the recent option-chain rows and the spot price. -/
structure MarketData where
  underlyingRsi : List ℚ
  optionChain : List OptionRow
  spotPrice : ℚ
deriving DecidableEq

/-- `AdvancedSignalEngine._analyze_market_conditions`
(src/strategy/advanced_signal_engine.py:137-197): compute the window
PCR (skip on `0`), read current/previous RSI (skip when missing,
falling back to the current value when only one sample exists), run the
OI analysis, and evaluate both signal directions. -/
def analyze_market_conditions (cfg : SignalConfig) (s : EngineState) (now : Int)
    (md : MarketData) (symbol : String) : List Signal × EngineState :=
  let pcrResult := compute_window_pcr md.optionChain md.spotPrice 50 2
  let pcrValue := pcrResult.1
  let atmStrike := pcrResult.2.1
  if pcrValue = 0 then ([], s)
  else
    match md.underlyingRsi.getLast? with
    | none => ([], s)
    | some currentRsi =>
        let previousRsi := (md.underlyingRsi.dropLast.getLast?).getD currentRsi
        let oi := analyze_oi_patterns md.optionChain atmStrike
        let ceResult := evaluate_ce_conditions cfg s now pcrValue currentRsi
          previousRsi oi md.spotPrice atmStrike symbol
        let peResult := evaluate_pe_conditions cfg ceResult.2 now pcrValue
          currentRsi previousRsi oi md.spotPrice atmStrike symbol
        (ceResult.1.toList ++ peResult.1.toList, peResult.2)

/-- `AdvancedSignalEngine.generate_signals`
(src/strategy/advanced_signal_engine.py:28-86): configuration and
market-hours gates, expiry cleanup, rate limit, market analysis,
confidence filtering, then per-signal rate-limit tracking and active
tracking (the database save is an external effect).  The market data is
passed in (`none` models a failed `_get_market_data`). -/
def generate_signals (cfg : SignalConfig) (s : EngineState) (t : Datetime)
    (md : Option MarketData) (symbol : String) : List Signal × EngineState :=
  if !cfg.enabled then ([], s)
  else if !is_market_hours cfg t then ([], s)
  else
    let s1 := clear_expired_signals cfg s t.epoch
    let rate := check_rate_limits cfg s1 t.epoch
    if !rate.1 then ([], rate.2)
    else
      match md with
      | none => ([], rate.2)
      | some d =>
          let analysis := analyze_market_conditions cfg rate.2 t.epoch d symbol
          let validSignals := analysis.1.filter
            (fun sig => decide (sig.confidenceScore ≥ cfg.confidenceThreshold))
          let finalState := validSignals.foldl
            (fun st sig => track_active_signal cfg
              (track_signal_for_rate_limiting st sig) sig) analysis.2
          (validSignals, finalState)

/-- Recursion core of `AutomatedScheduler.fetch_nifty_data_with_retry`:
`remaining` counts the attempts left out of `max_retries`; after a
failed attempt that is not the last one
(`attempt < max_retries - 1`, i.e. `remaining > 1`) the thread sleeps
`initial_delay * backoff ** attempt`.  Returns the outcome and the list
of slept durations in order. -/
def fetchRetryGo (op : Nat → Bool) (initialDelay backoff : ℚ) :
    Nat → Nat → Bool × List ℚ
  | _, 0 => (false, [])
  | attempt, remaining + 1 =>
      if op attempt then (true, [])
      else if remaining = 0 then (false, [])
      else
        let rest := fetchRetryGo op initialDelay backoff (attempt + 1) remaining
        (rest.1, initialDelay * backoff ^ attempt :: rest.2)

/-- `AutomatedScheduler.fetch_nifty_data_with_retry`
(src/data_ingestion/automated_scheduler.py:105-139), with the fallible
fetch abstracted as `op : attempt index → succeeded`. -/
def fetch_nifty_data_with_retry (op : Nat → Bool) (initialDelay backoff : ℚ)
    (maxRetries : Nat) : Bool × List ℚ :=
  fetchRetryGo op initialDelay backoff 0 maxRetries

attribute [local semireducible] Rat.mul Rat.inv Rat.add Rat.sub Rat.ofScientific

/-- An active entry that `clear_expired_signals` would keep at `now`
(its buffered expiry has not yet passed). -/
def entry_alive (cfg : SignalConfig) (now : Int) (e : ActiveEntry) : Bool :=
  decide (now < e.expiryTime + cfg.signalExpiryBufferSeconds)

/-- A state on which `clear_expired_signals` is a no-op at `now`: every
tracked entry is still within its buffered expiry window.  The spec
requires cleanup to run before every `is_active` / `track` decision
point, so the states reaching those decision points are clean. -/
def state_clean (cfg : SignalConfig) (s : EngineState) (now : Int) : Bool :=
  (match s.activeSignals.lookup SignalType.BUY_CE with
   | none => true
   | some e => entry_alive cfg now e) &&
  (match s.activeSignals.lookup SignalType.BUY_PE with
   | none => true
   | some e => entry_alive cfg now e)

/-- A concrete `BUY_CE` signal record used in the lifecycle examples. -/
def exampleSignal : Signal where
  signalType := SignalType.BUY_CE
  strikePrice := 20000
  signalStrength := SignalStrength.MEDIUM
  confidenceScore := 2/3
  pcrValue := 1/2
  rsiValue := 45
  oiChangePct := 20
  spotPrice := 20000
  premiumPrice := 50
  targetPrice := 50 * 1.33
  stopLoss := 50 * 0.8
  generatedAt := 0
  symbol := "NIFTY"
  validityMinutes := 15
  marketContext := "Bullish momentum"

/-- An active entry for `exampleSignal` with the given generation and
expiry instants. -/
def exampleEntryAt (generatedAt expiryTime validityMinutes : Int) : ActiveEntry :=
  ⟨exampleSignal, generatedAt, expiryTime, validityMinutes⟩

/-- A state tracking one `BUY_CE` entry that expires at instant 1000. -/
def exampleActiveState : EngineState :=
  ⟨KindMap.empty, [], ⟨some (exampleEntryAt 0 1000 15), none⟩⟩

/-- A state tracking one `BUY_CE` entry that expires at instant 100
(used to probe the buffer window `[100, 130)` under the default 30
second buffer). -/
def exampleBufferState : EngineState :=
  ⟨KindMap.empty, [], ⟨some (exampleEntryAt 0 100 15), none⟩⟩

/-- The rate-cap example configuration: every field is a value the
configuration validation in `SignalConfig._validate_config` accepts
(`market_hours_only` off, confidence threshold 0.6, hourly cap 6). -/
def c4Config : SignalConfig :=
  { defaultSignalConfig with marketHoursOnly := false, confidenceThreshold := 0.6 }

/-- Market data producing both a `BUY_CE` and a `BUY_PE` candidate under
`c4Config`: window PCR `130000/50000 = 2.6` is bearish, the RSI
transition 28 to 45 is a full oversold recovery, and both option sides
show a significant 20% OI change on sufficient open interest. -/
def c4MarketData : MarketData :=
  ⟨[28, 45],
   [⟨20000, "CE", 50000, 10000⟩, ⟨20000, "PE", 130000, 26000⟩],
   20000⟩

/-- Engine state with five emissions inside the trailing hour of
instant 10000 (one below the cap of 6). -/
def c4State : EngineState :=
  ⟨KindMap.empty, [9000, 9100, 9200, 9300, 9400], KindMap.empty⟩

/-- Engine state with six emissions inside the trailing hour of
instant 10000 (at the cap of 6). -/
def c4FullState : EngineState :=
  ⟨KindMap.empty, [9000, 9100, 9200, 9300, 9400, 9500], KindMap.empty⟩

/-- Wednesday 10:00:00, epoch second 10000, for the rate-cap example. -/
def c4Instant : Datetime := ⟨2, 36000, 10000⟩

/-- An operation that fails on its first two invocations and succeeds
from the third on (attempt indices are 0-based). -/
def retryOpExample : Nat → Bool := fun attempt => decide (attempt ≥ 2)

/-- An OI analysis with a significant positive 20% change and sufficient
open interest on both sides. -/
def exampleOi : OiAnalysis :=
  ⟨50000, 50000, 10000, 10000, 20, 20, 100000⟩

/-- The `BUY_CE` candidate produced by `_evaluate_ce_conditions` at
PCR 0.5, RSI 28 to 45 and `exampleOi` under the default configuration
(spec scenario 7): all three components positive, confidence 13/14. -/
def c5CeSignal : Signal where
  signalType := SignalType.BUY_CE
  strikePrice := 20000
  signalStrength := SignalStrength.HIGH
  confidenceScore := 13/14
  pcrValue := 1/2
  rsiValue := 45
  oiChangePct := 20
  spotPrice := 20000
  premiumPrice := 50
  targetPrice := 50 * 1.33
  stopLoss := 50 * 0.8
  generatedAt := 0
  symbol := "NIFTY"
  validityMinutes := 15
  marketContext := "Strong PCR bullish + RSI recovery + OI buildup"

/-- Market data whose PCR-window call-side open interest sums to zero
(only put rows), with RSI data present. -/
def c8NoCeData : MarketData :=
  ⟨[40, 45], [⟨20000, "PE", 130000, 26000⟩], 20000⟩

/-- Market data with a well-defined PCR but an empty RSI history. -/
def c8NoRsiData : MarketData :=
  ⟨[], [⟨20000, "CE", 50000, 10000⟩, ⟨20000, "PE", 130000, 26000⟩], 20000⟩

theorem KindMap.lookup_insert {α : Type} (m : KindMap α) (k : SignalType) (v : α) :
    (m.insert k v).lookup k = some v := by
  cases k <;> rfl

theorem lookup_clear_expired (cfg : SignalConfig) (s : EngineState) (now : Int)
    (k : SignalType) :
    (clear_expired_signals cfg s now).activeSignals.lookup k =
      match s.activeSignals.lookup k with
      | none => none
      | some e =>
          if now ≥ e.expiryTime + cfg.signalExpiryBufferSeconds then none
          else some e := by
  cases k <;> rfl

theorem clear_expired_history (cfg : SignalConfig) (s : EngineState) (now : Int) :
    (clear_expired_signals cfg s now).signalHistory = s.signalHistory := rfl

theorem clear_expired_lastSignals (cfg : SignalConfig) (s : EngineState) (now : Int) :
    (clear_expired_signals cfg s now).lastSignals = s.lastSignals := rfl

theorem state_clean_lookup (cfg : SignalConfig) (s : EngineState) (now : Int)
    (hclean : state_clean cfg s now = true) (k : SignalType) (e : ActiveEntry)
    (hk : s.activeSignals.lookup k = some e) :
    now < e.expiryTime + cfg.signalExpiryBufferSeconds := by
  unfold state_clean at hclean
  rw [Bool.and_eq_true] at hclean
  cases k with
  | BUY_CE =>
      have h1 := hclean.1
      rw [hk] at h1
      simpa [entry_alive] using h1
  | BUY_PE =>
      have h1 := hclean.2
      rw [hk] at h1
      simpa [entry_alive] using h1

theorem clear_expired_of_clean (cfg : SignalConfig) (s : EngineState) (now : Int)
    (hclean : state_clean cfg s now = true) :
    clear_expired_signals cfg s now = s := by
  unfold clear_expired_signals
  cases s with
  | mk ls hist act =>
      cases act with
      | mk ce pe =>
          simp only [EngineState.mk.injEq, KindMap.mk.injEq, true_and]
          constructor
          · cases hce : ce with
            | none => rfl
            | some e =>
                have halive := state_clean_lookup cfg ⟨ls, hist, ⟨ce, pe⟩⟩ now hclean
                  SignalType.BUY_CE e (by simpa [KindMap.lookup] using hce)
                simp only [hce]
                split
                · rename_i hdead
                  exact absurd hdead (not_le.mpr halive)
                · rfl
          · cases hpe : pe with
            | none => rfl
            | some e =>
                have halive := state_clean_lookup cfg ⟨ls, hist, ⟨ce, pe⟩⟩ now hclean
                  SignalType.BUY_PE e (by simpa [KindMap.lookup] using hpe)
                simp only [hpe]
                split
                · rename_i hdead
                  exact absurd hdead (not_le.mpr halive)
                · rfl

/-- **C9** (frame effect of cleanup): `clear_expired_signals` removes
exactly the active entries whose buffered expiry has passed
(`now >= expiry_time + buffer_seconds`), keeps every other entry
untouched (its `expiry_time` included), and leaves the rate-limit
emission history and the per-kind last-emission times unchanged. -/
theorem c9_clear_expired_frame (cfg : SignalConfig) (s : EngineState) (now : Int)
    (k : SignalType) :
    ((clear_expired_signals cfg s now).activeSignals.lookup k =
      match s.activeSignals.lookup k with
      | none => none
      | some e =>
          if now ≥ e.expiryTime + cfg.signalExpiryBufferSeconds then none
          else some e) ∧
    (clear_expired_signals cfg s now).signalHistory = s.signalHistory ∧
    (clear_expired_signals cfg s now).lastSignals = s.lastSignals :=
  ⟨lookup_clear_expired cfg s now k, rfl, rfl⟩

/-- **C10**: `is_signal_expired` is `true` for an untracked kind; for a
tracked kind it is `true` iff `now >= expiry_time`, with no buffer; so
inside the buffer window (`expiry_time <= now < expiry_time + buffer`)
the same kind is reported active by `is_signal_active` and expired by
`is_signal_expired` at once. -/
theorem c10_is_signal_expired (cfg : SignalConfig) (s : EngineState) (now : Int)
    (k : SignalType) :
    (s.activeSignals.lookup k = none → is_signal_expired cfg s now k = true) ∧
    (∀ e, s.activeSignals.lookup k = some e →
      (is_signal_expired cfg s now k = true ↔ e.expiryTime ≤ now)) ∧
    (∀ e, s.activeSignals.lookup k = some e → e.expiryTime ≤ now →
      now < e.expiryTime + cfg.signalExpiryBufferSeconds →
      (is_signal_active cfg s now k).1 = true ∧
        is_signal_expired cfg s now k = true) := by
  refine ⟨?_, ?_, ?_⟩
  · intro h
    unfold is_signal_expired
    rw [h]
  · intro e he
    unfold is_signal_expired
    rw [he]
    simp [ge_iff_le]
  · intro e he hexp hbuf
    constructor
    · unfold is_signal_active
      rw [he]
      simp only
      rw [lookup_clear_expired, he]
      simp [not_le.mpr hbuf]
    · unfold is_signal_expired
      rw [he]
      simp [ge_iff_le, hexp]

/-- Witness for C10 at the default configuration (buffer 30 seconds):
an entry expiring at instant 100 queried at instant 110 is inside the
buffer window, and is reported both active and expired. -/
theorem c10_is_signal_expired_witness :
    (is_signal_active defaultSignalConfig exampleBufferState 110
        SignalType.BUY_CE).1 = true ∧
      is_signal_expired defaultSignalConfig exampleBufferState 110
        SignalType.BUY_CE = true :=
  (c10_is_signal_expired defaultSignalConfig exampleBufferState 110
    SignalType.BUY_CE).2.2 (exampleEntryAt 0 100 15) rfl (by decide) (by decide)

/-- **C2, counterexample**: with the default 30-second expiry buffer, an
entry expiring at instant 100 queried at `now = 110` is still reported
active by `is_signal_active` even though `now < expiry_time` fails —
refuting the claimed "active iff an entry exists and
`now < expiry_time`". -/
theorem c2_counterexample :
    (is_signal_active defaultSignalConfig exampleBufferState 110
        SignalType.BUY_CE).1 = true ∧
      exampleBufferState.activeSignals.lookup SignalType.BUY_CE =
        some (exampleEntryAt 0 100 15) ∧
      ¬((110 : Int) < (exampleEntryAt 0 100 15).expiryTime) := by
  refine ⟨by decide, rfl, by decide⟩

/-- **C2, amended**: `is_signal_active(kind)` returns `true` iff an
entry for the kind exists and `now < expiry_time + buffer_seconds`
(cleanup, which runs inside the check, removes an entry only once its
buffered expiry has passed). -/
theorem c2_is_signal_active_amended (cfg : SignalConfig) (s : EngineState)
    (now : Int) (k : SignalType) :
    (is_signal_active cfg s now k).1 = true ↔
      ∃ e, s.activeSignals.lookup k = some e ∧
        now < e.expiryTime + cfg.signalExpiryBufferSeconds := by
  unfold is_signal_active
  cases hk : s.activeSignals.lookup k with
  | none => simp [hk]
  | some e =>
      show ((clear_expired_signals cfg s now).activeSignals.lookup k).isSome = true ↔
        ∃ e', some e = some e' ∧ now < e'.expiryTime + cfg.signalExpiryBufferSeconds
      rw [lookup_clear_expired, hk]
      show (if now ≥ e.expiryTime + cfg.signalExpiryBufferSeconds then (none : Option ActiveEntry)
          else some e).isSome = true ↔
        ∃ e', some e = some e' ∧ now < e'.expiryTime + cfg.signalExpiryBufferSeconds
      simp only [ge_iff_le]
      constructor
      · intro h
        refine ⟨e, rfl, ?_⟩
        by_contra hnotlt
        rw [if_pos (not_lt.mp hnotlt)] at h
        simp at h
      · rintro ⟨e', he', hlt⟩
        cases he'
        rw [if_neg (not_le.mpr hlt)]
        rfl

/-- **C3, counterexample**: the signal engine's market gate
`SignalConfig.is_market_hours` inspects only the time-of-day component
of the instant, so on a Saturday (weekday index 5) at 10:00 it still
returns `true` under the default configuration — refuting the claim
that the market-open check returns false on all Saturday/Sunday
instants. -/
theorem c3_counterexample :
    (Datetime.mk 5 36000 0).weekday > 4 ∧
      is_market_hours defaultSignalConfig ⟨5, 36000, 0⟩ = true := by
  refine ⟨by decide, by decide⟩

/-- **C3, amended**: the scheduler's `is_market_open` returns false on
every Saturday/Sunday instant and on weekdays is true iff the local
time lies in the closed interval `[start_time, end_time]`; the signal
engine's gate `SignalConfig.is_market_hours` (with `market_hours_only`
on) checks only the time-of-day against the same closed interval, with
no weekday test at all. -/
theorem c3_market_gates_amended (cfg : SignalConfig) (t : Datetime) :
    (4 < t.weekday → is_market_open cfg t = false) ∧
    (t.weekday ≤ 4 →
      (is_market_open cfg t = true ↔
        cfg.marketStartTime ≤ t.tod ∧ t.tod ≤ cfg.marketEndTime)) ∧
    (cfg.marketHoursOnly = true →
      (is_market_hours cfg t = true ↔
        cfg.marketStartTime ≤ t.tod ∧ t.tod ≤ cfg.marketEndTime)) := by
  refine ⟨?_, ?_, ?_⟩
  · intro h
    unfold is_market_open
    rw [if_pos h]
  · intro h
    unfold is_market_open
    rw [if_neg (not_lt.mpr h)]
    simp
  · intro h
    unfold is_market_hours
    rw [h]
    simp

/-- Witness for C3 (amended) under the default 09:15-15:30 window:
Saturday is rejected by `is_market_open`; Monday at exactly the start
and exactly the end instants is accepted; and `is_market_hours` accepts
a Sunday instant whose time-of-day is the start time. -/
theorem c3_market_gates_amended_witness :
    is_market_open defaultSignalConfig ⟨5, 36000, 0⟩ = false ∧
      is_market_open defaultSignalConfig ⟨0, 33300, 0⟩ = true ∧
      is_market_open defaultSignalConfig ⟨0, 55800, 0⟩ = true ∧
      is_market_hours defaultSignalConfig ⟨6, 33300, 0⟩ = true :=
  ⟨(c3_market_gates_amended defaultSignalConfig ⟨5, 36000, 0⟩).1 (by decide),
   ((c3_market_gates_amended defaultSignalConfig ⟨0, 33300, 0⟩).2.1
      (by decide)).mpr (by decide),
   ((c3_market_gates_amended defaultSignalConfig ⟨0, 55800, 0⟩).2.1
      (by decide)).mpr (by decide),
   ((c3_market_gates_amended defaultSignalConfig ⟨6, 33300, 0⟩).2.2
      (by decide)).mpr (by decide)⟩

/-- **C7**: `fetch_nifty_data_with_retry` with `max_retries = 3` on an
operation that fails on its first two attempts and succeeds on the
third returns success, having slept exactly `initial_delay` and then
`initial_delay * backoff` between the attempts. -/
theorem c7_retry_backoff (op : Nat → Bool) (initialDelay backoff : ℚ)
    (h0 : op 0 = false) (h1 : op 1 = false) (h2 : op 2 = true) :
    fetch_nifty_data_with_retry op initialDelay backoff 3 =
      (true, [initialDelay, initialDelay * backoff]) := by
  unfold fetch_nifty_data_with_retry
  unfold fetchRetryGo
  rw [h0]
  simp only [Bool.false_eq_true, if_false]
  unfold fetchRetryGo
  rw [h1]
  simp only [Bool.false_eq_true, if_false]
  unfold fetchRetryGo
  rw [h2]
  simp only [if_true]
  norm_num

/-- Witness for C7: the concrete operation succeeding from attempt
index 2 on, with `initial_delay = 1` and `backoff = 2`, returns success
with sleeps `[1, 2]`. -/
theorem c7_retry_backoff_witness :
    fetch_nifty_data_with_retry retryOpExample 1 2 3 = (true, [1, 2]) := by
  have h := c7_retry_backoff retryOpExample 1 2 rfl rfl rfl
  rw [h]
  norm_num

theorem is_signal_active_of_clean (cfg : SignalConfig) (s : EngineState)
    (now : Int) (hclean : state_clean cfg s now = true) (k : SignalType) :
    is_signal_active cfg s now k = ((s.activeSignals.lookup k).isSome, s) := by
  unfold is_signal_active
  cases hk : s.activeSignals.lookup k with
  | none => rfl
  | some e =>
      show (((clear_expired_signals cfg s now).activeSignals.lookup k).isSome,
        clear_expired_signals cfg s now) = ((some e).isSome, s)
      rw [clear_expired_of_clean cfg s now hclean, hk]

theorem track_candidate_of_clean (cfg : SignalConfig) (s : EngineState)
    (now : Int) (sig : Signal) (hren : cfg.enableSignalRenewal = true)
    (hclean : state_clean cfg s now = true) :
    track_candidate cfg s now sig =
      if (s.activeSignals.lookup sig.signalType).isSome then (false, s)
      else (true, track_active_signal cfg s sig) := by
  have hg : renewal_gate cfg s now sig.signalType =
      ((s.activeSignals.lookup sig.signalType).isSome, s) := by
    unfold renewal_gate
    simp only [hren, if_true]
    exact is_signal_active_of_clean cfg s now hclean sig.signalType
  unfold track_candidate
  rw [hg]

/-- **C1**: under renewal mode, on a clean state (cleanup has already
run, as the spec requires before every decision point), the `track`
operation — the renewal guard in `_evaluate_*_conditions` followed by
`track_active_signal` — rejects a candidate whose kind has a
still-active (not yet expired) entry and leaves the active-signal
table unchanged; it inserts only when no entry exists for the kind or
the existing entry is already expired, and the inserted entry carries
`expiry_time = generated_at + validity_duration`. -/
theorem c1_track_candidate (cfg : SignalConfig) (s : EngineState) (now : Int)
    (sig : Signal) (hren : cfg.enableSignalRenewal = true)
    (hclean : state_clean cfg s now = true) :
    ((∃ e, s.activeSignals.lookup sig.signalType = some e ∧ now < e.expiryTime) →
      (track_candidate cfg s now sig).1 = false ∧
        ((track_candidate cfg s now sig).2).activeSignals = s.activeSignals) ∧
    ((track_candidate cfg s now sig).1 = true →
      s.activeSignals.lookup sig.signalType = none ∨
        ∃ e, s.activeSignals.lookup sig.signalType = some e ∧ e.expiryTime ≤ now) ∧
    ((track_candidate cfg s now sig).1 = true →
      ((track_candidate cfg s now sig).2).activeSignals.lookup sig.signalType =
        some ⟨sig, sig.generatedAt, sig.generatedAt + sig.validityMinutes * 60,
          sig.validityMinutes⟩) := by
  rw [track_candidate_of_clean cfg s now sig hren hclean]
  refine ⟨?_, ?_, ?_⟩
  · rintro ⟨e, he, _⟩
    rw [he]
    exact ⟨rfl, rfl⟩
  · intro hacc
    cases hl : s.activeSignals.lookup sig.signalType with
    | none => exact Or.inl rfl
    | some e =>
        rw [hl] at hacc
        simp at hacc
  · intro hacc
    cases hl : s.activeSignals.lookup sig.signalType with
    | none =>
        show (track_active_signal cfg s sig).activeSignals.lookup sig.signalType = _
        unfold track_active_signal
        exact KindMap.lookup_insert s.activeSignals sig.signalType _
    | some e =>
        rw [hl] at hacc
        simp at hacc

/-- Witness for C1 at the default configuration: tracking a second
`BUY_CE` candidate at instant 500 while the entry expiring at 1000 is
still active is rejected and leaves the table unchanged, while tracking
into the empty engine state succeeds and stores
`expiry_time = generated_at + 15 minutes`. -/
theorem c1_track_candidate_witness :
    ((track_candidate defaultSignalConfig exampleActiveState 500 exampleSignal).1 =
        false ∧
      ((track_candidate defaultSignalConfig exampleActiveState 500
          exampleSignal).2).activeSignals = exampleActiveState.activeSignals) ∧
    ((track_candidate defaultSignalConfig initialEngineState 500
        exampleSignal).2).activeSignals.lookup SignalType.BUY_CE =
      some ⟨exampleSignal, 0, 900, 15⟩ :=
  ⟨(c1_track_candidate defaultSignalConfig exampleActiveState 500 exampleSignal
      rfl (by decide)).1 ⟨exampleEntryAt 0 1000 15, rfl, by decide⟩,
   (c1_track_candidate defaultSignalConfig initialEngineState 500 exampleSignal
      rfl (by decide)).2.2 (by decide)⟩

theorem compute_window_pcr_of_ce_zero (chain : List OptionRow) (spotPrice : ℚ)
    (step window : Int) (hce : pcrWindowCeOi chain spotPrice step window = 0) :
    (compute_window_pcr chain spotPrice step window).1 = 0 := by
  unfold compute_window_pcr
  simp [hce]

/-- **C8**: when the call-side open interest in the PCR window sums to
zero (PCR guarded to `0`) or the RSI history is missing, market
analysis returns the empty signal list (the embedding is total, so no
exception is raised on these paths). -/
theorem c8_missing_data (cfg : SignalConfig) (s : EngineState) (now : Int)
    (md : MarketData) (symbol : String) :
    (pcrWindowCeOi md.optionChain md.spotPrice 50 2 = 0 →
      (analyze_market_conditions cfg s now md symbol).1 = []) ∧
    (md.underlyingRsi = [] →
      (analyze_market_conditions cfg s now md symbol).1 = []) := by
  constructor
  · intro hce
    have hpcr := compute_window_pcr_of_ce_zero md.optionChain md.spotPrice 50 2 hce
    simp only [analyze_market_conditions, hpcr]
    rfl
  · intro hrsi
    simp only [analyze_market_conditions, hrsi, List.getLast?_nil]
    split
    · rfl
    · rfl

/-- Witness for C8: a chain with only put rows yields no signals, and
so does an empty RSI history next to a well-defined PCR. -/
theorem c8_missing_data_witness :
    (analyze_market_conditions defaultSignalConfig initialEngineState 0
        c8NoCeData "NIFTY").1 = [] ∧
      (analyze_market_conditions defaultSignalConfig initialEngineState 0
        c8NoRsiData "NIFTY").1 = [] :=
  ⟨(c8_missing_data defaultSignalConfig initialEngineState 0 c8NoCeData
      "NIFTY").1 (by decide),
   (c8_missing_data defaultSignalConfig initialEngineState 0 c8NoRsiData
      "NIFTY").2 rfl⟩

theorem strengthOfConfidence_spec (q : ℚ) :
    (strengthOfConfidence q = SignalStrength.HIGH ↔ 0.8 ≤ q) ∧
    (strengthOfConfidence q = SignalStrength.MEDIUM ↔ 0.6 ≤ q ∧ q < 0.8) ∧
    (strengthOfConfidence q = SignalStrength.LOW ↔ q < 0.6) := by
  unfold strengthOfConfidence
  split_ifs with h1 h2 <;>
    refine ⟨?_, ?_, ?_⟩ <;> simp_all [ge_iff_le] <;> first
      | linarith
      | intro h
        linarith

theorem min_half_max_bounds (x : ℚ) :
    0 ≤ min 1 (0.5 + max 0 x) ∧ min 1 (0.5 + max 0 x) ≤ 1 := by
  constructor
  · apply le_min
    · norm_num
    · have := le_max_left (0 : ℚ) x
      linarith
  · exact min_le_left _ _

theorem ce_components_bounds (cfg : SignalConfig) (pcr curr prev : ℚ)
    (oi : OiAnalysis) :
    (0 ≤ (ce_components cfg pcr curr prev oi).1 ∧
      (ce_components cfg pcr curr prev oi).1 ≤ 1) ∧
    (0 ≤ (ce_components cfg pcr curr prev oi).2.1 ∧
      (ce_components cfg pcr curr prev oi).2.1 ≤ 1) ∧
    (0 ≤ (ce_components cfg pcr curr prev oi).2.2 ∧
      (ce_components cfg pcr curr prev oi).2.2 ≤ 1) := by
  unfold ce_components
  dsimp only
  refine ⟨?_, ?_, ?_⟩ <;> split_ifs <;>
    first
      | exact min_half_max_bounds _
      | norm_num

theorem pe_components_bounds (cfg : SignalConfig) (pcr curr prev : ℚ)
    (oi : OiAnalysis) (hm : 0 < cfg.pcrBuyPeMin) :
    (0 ≤ (pe_components cfg pcr curr prev oi).1 ∧
      (pe_components cfg pcr curr prev oi).1 ≤ 1) ∧
    (0 ≤ (pe_components cfg pcr curr prev oi).2.1 ∧
      (pe_components cfg pcr curr prev oi).2.1 ≤ 1) ∧
    (0 ≤ (pe_components cfg pcr curr prev oi).2.2 ∧
      (pe_components cfg pcr curr prev oi).2.2 ≤ 1) := by
  unfold pe_components
  dsimp only
  refine ⟨?_, ?_, ?_⟩ <;> split_ifs <;> try norm_num
  rename_i hb
  rw [is_pcr_bearish, decide_eq_true_eq, ge_iff_le] at hb
  have hdiv : 0 ≤ (pcr - cfg.pcrBuyPeMin) / cfg.pcrBuyPeMin :=
    div_nonneg (by linarith) hm.le
  linarith

theorem componentMean_bounds (c : ℚ × ℚ × ℚ)
    (h1 : 0 ≤ c.1 ∧ c.1 ≤ 1) (h2 : 0 ≤ c.2.1 ∧ c.2.1 ≤ 1)
    (h3 : 0 ≤ c.2.2 ∧ c.2.2 ≤ 1) :
    0 ≤ componentMean c ∧ componentMean c ≤ 1 := by
  unfold componentMean
  constructor
  · apply div_nonneg _ (by norm_num)
    linarith [h1.1, h2.1, h3.1]
  · rw [div_le_one (by norm_num)]
    linarith [h1.2, h2.2, h3.2]

/-- **C5**: every candidate returned by the evaluation functions
carries a confidence equal to the arithmetic mean of its three
sub-scores, that confidence lies in `[0, 1]`, and the strength tier is
`HIGH` iff confidence `>= 0.8`, `MEDIUM` iff `0.6 <= confidence < 0.8`
and `LOW` otherwise. -/
theorem c5_confidence_and_tiers (cfg : SignalConfig) (s : EngineState) (now : Int)
    (pcr curr prev : ℚ) (oi : OiAnalysis) (spot : ℚ) (atm : Int) (symbol : String)
    (hm : 0 < cfg.pcrBuyPeMin) :
    (∀ sig, (evaluate_ce_conditions cfg s now pcr curr prev (some oi) spot atm
        symbol).1 = some sig →
      sig.confidenceScore = componentMean (ce_components cfg pcr curr prev oi) ∧
      0 ≤ sig.confidenceScore ∧ sig.confidenceScore ≤ 1 ∧
      (sig.signalStrength = SignalStrength.HIGH ↔ 0.8 ≤ sig.confidenceScore) ∧
      (sig.signalStrength = SignalStrength.MEDIUM ↔
        0.6 ≤ sig.confidenceScore ∧ sig.confidenceScore < 0.8) ∧
      (sig.signalStrength = SignalStrength.LOW ↔ sig.confidenceScore < 0.6)) ∧
    (∀ sig, (evaluate_pe_conditions cfg s now pcr curr prev (some oi) spot atm
        symbol).1 = some sig →
      sig.confidenceScore = componentMean (pe_components cfg pcr curr prev oi) ∧
      0 ≤ sig.confidenceScore ∧ sig.confidenceScore ≤ 1 ∧
      (sig.signalStrength = SignalStrength.HIGH ↔ 0.8 ≤ sig.confidenceScore) ∧
      (sig.signalStrength = SignalStrength.MEDIUM ↔
        0.6 ≤ sig.confidenceScore ∧ sig.confidenceScore < 0.8) ∧
      (sig.signalStrength = SignalStrength.LOW ↔ sig.confidenceScore < 0.6)) := by
  constructor
  · intro sig h
    unfold evaluate_ce_conditions at h
    split at h
    · simp at h
    · replace h : ce_signal_core cfg now pcr curr prev (some oi) spot atm symbol =
          some sig := h
      unfold ce_signal_core at h
      dsimp only at h
      split at h
      · simp at h
      · rw [Option.some_inj] at h
        subst h
        have hb := ce_components_bounds cfg pcr curr prev oi
        have hmean := componentMean_bounds _ hb.1 hb.2.1 hb.2.2
        exact ⟨rfl, hmean.1, hmean.2, strengthOfConfidence_spec _⟩
  · intro sig h
    unfold evaluate_pe_conditions at h
    split at h
    · simp at h
    · replace h : pe_signal_core cfg now pcr curr prev (some oi) spot atm symbol =
          some sig := h
      unfold pe_signal_core at h
      dsimp only at h
      split at h
      · simp at h
      · rw [Option.some_inj] at h
        subst h
        have hb := pe_components_bounds cfg pcr curr prev oi hm
        have hmean := componentMean_bounds _ hb.1 hb.2.1 hb.2.2
        exact ⟨rfl, hmean.1, hmean.2, strengthOfConfidence_spec _⟩

/-- **C6**: a candidate with fewer than two strictly positive
sub-scores is never emitted: the evaluation functions return `None`
whenever `conditions_met < 2`. -/
theorem c6_two_of_three (cfg : SignalConfig) (s : EngineState) (now : Int)
    (pcr curr prev : ℚ) (oi : OiAnalysis) (spot : ℚ) (atm : Int)
    (symbol : String) :
    (conditionsMet (ce_components cfg pcr curr prev oi) < 2 →
      (evaluate_ce_conditions cfg s now pcr curr prev (some oi) spot atm
        symbol).1 = none) ∧
    (conditionsMet (pe_components cfg pcr curr prev oi) < 2 →
      (evaluate_pe_conditions cfg s now pcr curr prev (some oi) spot atm
        symbol).1 = none) := by
  constructor
  · intro hcm
    unfold evaluate_ce_conditions
    split
    · rfl
    · show ce_signal_core cfg now pcr curr prev (some oi) spot atm symbol = none
      unfold ce_signal_core
      dsimp only
      rw [if_pos hcm]
  · intro hcm
    unfold evaluate_pe_conditions
    split
    · rfl
    · show pe_signal_core cfg now pcr curr prev (some oi) spot atm symbol = none
      unfold pe_signal_core
      dsimp only
      rw [if_pos hcm]

/-- Witness for C5 at the default configuration (spec scenario 7):
PCR 0.5, RSI 28 to 45 and a significant OI build-up yield a `BUY_CE`
candidate with confidence `13/14` and strength `HIGH`. -/
theorem c5_confidence_and_tiers_witness :
    (evaluate_ce_conditions defaultSignalConfig initialEngineState 0 (1/2) 45 28
        (some exampleOi) 20000 20000 "NIFTY").1 = some c5CeSignal ∧
      0 ≤ c5CeSignal.confidenceScore ∧ c5CeSignal.confidenceScore ≤ 1 ∧
      (c5CeSignal.signalStrength = SignalStrength.HIGH ↔
        0.8 ≤ c5CeSignal.confidenceScore) := by
  have heval : (evaluate_ce_conditions defaultSignalConfig initialEngineState 0
      (1/2) 45 28 (some exampleOi) 20000 20000 "NIFTY").1 = some c5CeSignal := by
    decide
  have h := (c5_confidence_and_tiers defaultSignalConfig initialEngineState 0
    (1/2) 45 28 exampleOi 20000 20000 "NIFTY" (by decide)).1 c5CeSignal heval
  exact ⟨heval, h.2.1, h.2.2.1, h.2.2.2.1⟩

/-- Witness for C6: at neutral PCR 1.0 and a flat RSI only the OI
sub-score is positive, and the CE evaluation returns `None`. -/
theorem c6_two_of_three_witness :
    conditionsMet (ce_components defaultSignalConfig 1 50 50 exampleOi) < 2 ∧
      (evaluate_ce_conditions defaultSignalConfig initialEngineState 0 1 50 50
        (some exampleOi) 20000 20000 "NIFTY").1 = none :=
  ⟨by decide,
   (c6_two_of_three defaultSignalConfig initialEngineState 0 1 50 50 exampleOi
      20000 20000 "NIFTY").1 (by decide)⟩

/-- **C4, counterexample**: with the legal configuration `c4Config`
(hourly cap 6, confidence threshold 0.6) and five emissions already in
the trailing hour, one `generate_signals` call passes the rate gate
once and then emits BOTH a `BUY_CE` and a `BUY_PE` signal, leaving
seven emissions inside the trailing 60-minute window — exceeding the
cap. -/
theorem c4_rate_cap_counterexample :
    c4Config.maxSignalsPerHour = 6 ∧
      windowCount c4State.signalHistory 10000 = 5 ∧
      windowCount (generate_signals c4Config c4State c4Instant
        (some c4MarketData) "NIFTY").2.signalHistory 10000 = 7 := by
  refine ⟨rfl, by decide, by decide⟩

theorem renewal_gate_history (cfg : SignalConfig) (s : EngineState) (now : Int)
    (k : SignalType) :
    ((renewal_gate cfg s now k).2).signalHistory = s.signalHistory := by
  unfold renewal_gate
  split
  · unfold is_signal_active
    split
    · rfl
    · rfl
  · rfl

theorem evaluate_ce_snd (cfg : SignalConfig) (s : EngineState) (now : Int)
    (pcr curr prev : ℚ) (oi : Option OiAnalysis) (spot : ℚ) (atm : Int)
    (symbol : String) :
    (evaluate_ce_conditions cfg s now pcr curr prev oi spot atm symbol).2 =
      (renewal_gate cfg s now SignalType.BUY_CE).2 := by
  unfold evaluate_ce_conditions
  split
  · rfl
  · rfl

theorem evaluate_pe_snd (cfg : SignalConfig) (s : EngineState) (now : Int)
    (pcr curr prev : ℚ) (oi : Option OiAnalysis) (spot : ℚ) (atm : Int)
    (symbol : String) :
    (evaluate_pe_conditions cfg s now pcr curr prev oi spot atm symbol).2 =
      (renewal_gate cfg s now SignalType.BUY_PE).2 := by
  unfold evaluate_pe_conditions
  split
  · rfl
  · rfl

theorem analyze_market_conditions_history (cfg : SignalConfig) (s : EngineState)
    (now : Int) (md : MarketData) (symbol : String) :
    ((analyze_market_conditions cfg s now md symbol).2).signalHistory =
      s.signalHistory := by
  simp only [analyze_market_conditions]
  split
  · rfl
  · split
    · rfl
    · rw [evaluate_pe_snd, renewal_gate_history, evaluate_ce_snd,
        renewal_gate_history]

theorem analyze_market_conditions_length (cfg : SignalConfig) (s : EngineState)
    (now : Int) (md : MarketData) (symbol : String) :
    (analyze_market_conditions cfg s now md symbol).1.length ≤ 2 := by
  simp only [analyze_market_conditions]
  split
  · simp
  · split
    · simp
    · rw [List.length_append]
      have h1 : ∀ o : Option Signal, o.toList.length ≤ 1 := fun o => by
        cases o <;> simp
      exact Nat.add_le_add (h1 _) (h1 _)

theorem fold_track_history (cfg : SignalConfig) (l : List Signal)
    (s0 : EngineState) :
    (l.foldl (fun st sig => track_active_signal cfg
        (track_signal_for_rate_limiting st sig) sig) s0).signalHistory =
      s0.signalHistory ++ l.map (fun sig => sig.generatedAt) := by
  induction l generalizing s0 with
  | nil => simp
  | cons a l ih =>
      simp only [List.foldl_cons, List.map_cons]
      rw [ih]
      show (track_active_signal cfg (track_signal_for_rate_limiting s0 a)
          a).signalHistory ++ _ = _
      unfold track_active_signal track_signal_for_rate_limiting
      simp

theorem windowCount_filter (h : List Int) (now : Int) :
    windowCount (h.filter (fun t => decide (t > now - 3600))) now =
      windowCount h now := by
  unfold windowCount
  rw [List.filter_filter]
  simp

theorem windowCount_append_le (h l : List Int) (now : Int) :
    windowCount (h ++ l) now ≤ windowCount h now + l.length := by
  unfold windowCount
  rw [List.filter_append, List.length_append]
  have := List.length_filter_le (fun t => decide (t > now - 3600)) l
  omega

theorem check_rate_limits_fst (cfg : SignalConfig) (s : EngineState) (now : Int) :
    (check_rate_limits cfg (clear_expired_signals cfg s now) now).1 =
      decide (windowCount s.signalHistory now < cfg.maxSignalsPerHour) := by
  simp only [check_rate_limits, clear_expired_history, windowCount]

theorem check_rate_limits_windowCount (cfg : SignalConfig) (s : EngineState)
    (now : Int) :
    windowCount ((check_rate_limits cfg (clear_expired_signals cfg s now)
      now).2).signalHistory now = windowCount s.signalHistory now := by
  show windowCount ((clear_expired_signals cfg s now).signalHistory.filter
    (fun t => decide (t > now - 3600))) now = _
  rw [clear_expired_history, windowCount_filter]

/-- **C4, amended**: the hourly rate gate is evaluated once per
`generate_signals` call against `windowed count < cap`, and a single
call can emit up to two signals (one per direction); hence a call whose
trailing-hour count has reached the cap emits nothing, every call emits
at most two signals, and the trailing-hour emission count never exceeds
`cap + 1` (rather than the claimed `cap`). -/
theorem c4_rate_cap_amended (cfg : SignalConfig) (s : EngineState) (t : Datetime)
    (md : Option MarketData) (symbol : String) :
    (cfg.maxSignalsPerHour ≤ windowCount s.signalHistory t.epoch →
      (generate_signals cfg s t md symbol).1 = []) ∧
    (generate_signals cfg s t md symbol).1.length ≤ 2 ∧
    (windowCount s.signalHistory t.epoch ≤ cfg.maxSignalsPerHour + 1 →
      windowCount ((generate_signals cfg s t md symbol).2).signalHistory t.epoch ≤
        cfg.maxSignalsPerHour + 1) := by
  cases hen : cfg.enabled with
  | false =>
      have hg : generate_signals cfg s t md symbol = ([], s) := by
        simp only [generate_signals, hen]
        rfl
      rw [hg]
      exact ⟨fun _ => rfl, by simp, fun h => h⟩
  | true =>
      cases hmh : is_market_hours cfg t with
      | false =>
          have hg : generate_signals cfg s t md symbol = ([], s) := by
            simp only [generate_signals, hen, hmh]
            rfl
          rw [hg]
          exact ⟨fun _ => rfl, by simp, fun h => h⟩
      | true =>
          cases hrl : (check_rate_limits cfg (clear_expired_signals cfg s t.epoch)
              t.epoch).1 with
          | false =>
              have hg : generate_signals cfg s t md symbol =
                  ([], (check_rate_limits cfg (clear_expired_signals cfg s t.epoch)
                    t.epoch).2) := by
                simp only [generate_signals, hen, hmh, hrl]
                rfl
              rw [hg]
              refine ⟨fun _ => rfl, by simp, fun hb => ?_⟩
              rw [check_rate_limits_windowCount]
              exact hb
          | true =>
              have hwc : windowCount s.signalHistory t.epoch <
                  cfg.maxSignalsPerHour := by
                rw [check_rate_limits_fst] at hrl
                exact of_decide_eq_true hrl
              cases md with
              | none =>
                  have hg : generate_signals cfg s t none symbol =
                      ([], (check_rate_limits cfg
                        (clear_expired_signals cfg s t.epoch) t.epoch).2) := by
                    simp only [generate_signals, hen, hmh, hrl]
                    rfl
                  rw [hg]
                  refine ⟨fun hcap => absurd hwc (not_lt.mpr hcap), by simp,
                    fun hb => ?_⟩
                  rw [check_rate_limits_windowCount]
                  exact hb
              | some d =>
                  have hg : generate_signals cfg s t (some d) symbol =
                      ((analyze_market_conditions cfg
                          (check_rate_limits cfg (clear_expired_signals cfg s
                            t.epoch) t.epoch).2 t.epoch d symbol).1.filter
                        (fun sig => decide (sig.confidenceScore ≥
                          cfg.confidenceThreshold)),
                       ((analyze_market_conditions cfg
                          (check_rate_limits cfg (clear_expired_signals cfg s
                            t.epoch) t.epoch).2 t.epoch d symbol).1.filter
                        (fun sig => decide (sig.confidenceScore ≥
                          cfg.confidenceThreshold))).foldl
                         (fun st sig => track_active_signal cfg
                           (track_signal_for_rate_limiting st sig) sig)
                         (analyze_market_conditions cfg
                          (check_rate_limits cfg (clear_expired_signals cfg s
                            t.epoch) t.epoch).2 t.epoch d symbol).2) := by
                    simp only [generate_signals, hen, hmh, hrl]
                    rfl
                  have hlen : ((analyze_market_conditions cfg
                      (check_rate_limits cfg (clear_expired_signals cfg s
                        t.epoch) t.epoch).2 t.epoch d symbol).1.filter
                      (fun sig => decide (sig.confidenceScore ≥
                        cfg.confidenceThreshold))).length ≤ 2 :=
                    le_trans (List.length_filter_le _ _)
                      (analyze_market_conditions_length cfg _ t.epoch d symbol)
                  rw [hg]
                  refine ⟨fun hcap => absurd hwc (not_lt.mpr hcap), hlen,
                    fun hb => ?_⟩
                  rw [fold_track_history]
                  refine le_trans (windowCount_append_le _ _ t.epoch) ?_
                  rw [analyze_market_conditions_history,
                    check_rate_limits_windowCount]
                  have hmap : (List.map (fun sig => sig.generatedAt)
                      ((analyze_market_conditions cfg
                        (check_rate_limits cfg (clear_expired_signals cfg s
                          t.epoch) t.epoch).2 t.epoch d symbol).1.filter
                        (fun sig => decide (sig.confidenceScore ≥
                          cfg.confidenceThreshold)))).length ≤ 2 := by
                    rw [List.length_map]
                    exact hlen
                  omega

/-- Witness for C4 (amended): a call with six emissions already in the
window (at the cap) emits nothing, and the post-state of the
five-emission call stays within `cap + 1 = 7`. -/
theorem c4_rate_cap_amended_witness :
    (generate_signals c4Config c4FullState c4Instant (some c4MarketData)
        "NIFTY").1 = [] ∧
      windowCount ((generate_signals c4Config c4State c4Instant
        (some c4MarketData) "NIFTY").2).signalHistory 10000 ≤ 7 :=
  ⟨(c4_rate_cap_amended c4Config c4FullState c4Instant (some c4MarketData)
      "NIFTY").1 (by decide),
   (c4_rate_cap_amended c4Config c4State c4Instant (some c4MarketData)
      "NIFTY").2.2 (by decide)⟩

end FOAITrader
